import Mathlib

/-!
Shallow embedding of the client-side package validation logic of the
cameronhighlands-admin repository: the zod schemas of the tour-creation form
(src/app/tours/add-tour/page_old.tsx), the tour-edit form
(src/app/tours/[id]/page.tsx) and the transfer-creation form
(src/app/transfers/add-transfer/page.tsx), together with the caller-side
FAQ completeness check, the validate-then-save state of the transfer form,
and the slug auto-generation chain.

Drafts are modelled as well-typed records, mirroring the TypeScript form-data
types inferred from the schemas (react-hook-form always hands the resolver a
value of that type).  For such well-typed input no zod check can abort the
parse (aborts arise only from type-level mismatches), so zod's semantics are:
every per-field check runs and contributes its issue, and every object-level
`.refine` in the chain also runs — a per-field failure only marks the parse
dirty, it does not suppress refinements.  The error list is therefore the
per-field issues (in shape order) followed by the refinement issues (in chain
order).  JavaScript numbers are modelled as integers; string truthiness is
modelled as non-emptiness.
-/

set_option maxRecDepth 16384

namespace CHAdmin

/-- Modelled from the spec: `stripHtmlTags` lives in src/lib/htmlValidation,
which is not among the provided sources.  The spec defines the stripped
length of a rich-text value as "the character count of a rich-text value
after removing all markup tags", with "markup stripping must remove all tags
and collapse to plain text before measuring".  This removes every
`<`..`>` tag span from the character list. -/
def stripAux : List Char → Bool → List Char
  | [], _ => []
  | c :: cs, true => if c = '>' then stripAux cs false else stripAux cs true
  | c :: cs, false => if c = '<' then stripAux cs true else c :: stripAux cs false

/-- Modelled from the spec: plain-text projection of a rich-text value. -/
def stripHtmlTags (s : String) : String :=
  String.mk (stripAux s.data false)

/-- Whitespace class of JavaScript (`\s`, `trim`), restricted to ASCII. -/
def jsWs (c : Char) : Bool :=
  c = ' ' || c = '\t' || c = '\n' || c = '\r' || c = '\x0b' || c = '\x0c'

/-- Model of JavaScript `String.prototype.trim`: drop whitespace from both
ends. -/
def jsTrim (s : String) : String :=
  String.mk (((s.data.dropWhile jsWs).reverse.dropWhile jsWs).reverse)

/-- Model of JavaScript `String.prototype.toLowerCase`, restricted to the
ASCII case mapping. -/
def jsToLower (s : String) : String :=
  String.mk (s.data.map Char.toLower)

/-- JS-style check on an optional number: vacuously true when absent. -/
def optAll (p : Int → Bool) : Option Int → Bool
  | none => true
  | some n => p n

/-- A zod issue: the field path (zod's `path` array) and the message. -/
abbrev FieldError := List String × String

/-- One validation rule: an empty issue list when the predicate holds,
otherwise the single issue at the given path. -/
def check (p : Prop) [Decidable p] (path : List String) (msg : String) :
    List FieldError :=
  if p then [] else [(path, msg)]

/-- Per-element issues of `z.array(z.string().min(1))`: one issue at
`path.i` for each element failing the element rule. -/
def elemChecks (base : List String) (msg : String) (ok : String → Bool)
    (l : List String) : List FieldError :=
  l.enum.filterMap fun it =>
    if ok it.2 then none else some (base ++ [toString it.1], msg)

/-- An FAQ entry as in the form data. -/
structure FaqEntry where
  question : String
  answer : String
  deriving DecidableEq, Repr

/-- Issues of `z.array(z.object({question: min(1), answer: min(1)}))`. -/
def faqChecks (base : List String) (l : List FaqEntry) : List FieldError :=
  (l.enum.map fun it =>
    check (1 ≤ it.2.question.length) (base ++ [toString it.1, "question"])
        "Question is required" ++
    check (1 ≤ it.2.answer.length) (base ++ [toString it.1, "answer"])
        "Answer is required").flatten

/-- The slug regex `^[a-z0-9-]*$` accepts a string iff every character is a
lowercase ASCII letter, a digit or a hyphen. -/
def slugChar (c : Char) : Bool :=
  ('a' ≤ c && c ≤ 'z') || ('0' ≤ c && c ≤ '9') || c = '-'

/-- Model of the per-field slug rule `regex(^[a-z0-9-]*$).optional().or(literal(""))`:
the empty string already matches the regex, so acceptance is exactly the regex. -/
def slugOk (s : String) : Bool := s.data.all slugChar

/-- Paths of an issue list. -/
def errorPaths (es : List FieldError) : List (List String) := es.map Prod.fst

/-- JS truthiness of an optional string (`undefined` and `""` are falsy). -/
def truthyStr : Option String → Bool
  | none => false
  | some s => s ≠ ""

/-- JS truthiness of an optional number (`undefined` and `0` are falsy). -/
def truthyNum : Option Int → Bool
  | none => false
  | some n => n ≠ 0

/-- Tour type enum `z.enum(["co-tour", "private"])`. -/
inductive TourType | coTour | privateTour
  deriving DecidableEq, Repr

/-- Period enum `z.enum(["Half-Day", "Full-Day"])`. -/
inductive Period | halfDay | fullDay
  deriving DecidableEq, Repr

/-- Label enum (the creation schemas spell "Best seller", the edit schema
"Best Seller"; the enum carries no further rules in any schema). -/
inductive Label | recommended | popular | bestValue | bestSeller | noLabel
  deriving DecidableEq, Repr

/-- Nested `details` object of the tour-creation schema. -/
structure TourDetails where
  about : String
  itinerary : String
  pickupLocation : String
  pickupGuidelines : String
  note : String
  faq : List FaqEntry
  deriving DecidableEq, Repr

/-- Form data of the tour-creation schema (`TourFormData` in
src/app/tours/add-tour/page_old.tsx). -/
structure TourDraft where
  title : String
  slug : String
  image : String
  tags : List String
  description : String
  type : TourType
  duration : String
  period : Period
  bookedCount : Int
  oldPrice : Int
  newPrice : Int
  childPrice : Int
  minimumPerson : Int
  maximumPerson : Int
  vehicle : Option String
  seatCapacity : Option Int
  departureTimes : List String
  label : Label
  details : TourDetails
  deriving DecidableEq, Repr

/-- Per-field issues of the tour-creation schema, in shape order. -/
def tourFieldErrors (d : TourDraft) : List FieldError :=
  check (20 ≤ d.title.length) ["title"] "Title must be at least 20 characters" ++
  check (d.title.length ≤ 100) ["title"] "Title cannot exceed 100 characters" ++
  check (slugOk d.slug = true) ["slug"]
      "Slug can only contain lowercase letters, numbers and hyphens" ++
  check (1 ≤ d.image.length) ["image"] "Please provide an image" ++
  check (1 ≤ d.tags.length) ["tags"] "At least one tag is required" ++
  elemChecks ["tags"] "String must contain at least 1 character(s)"
      (fun t => 1 ≤ t.length) d.tags ++
  check (50 ≤ d.description.length) ["description"]
      "Description must be at least 50 characters" ++
  check (d.description.length ≤ 110) ["description"]
      "Description cannot exceed 110 characters" ++
  check (1 ≤ d.duration.length) ["duration"] "Duration is required" ++
  check (0 ≤ d.bookedCount) ["bookedCount"]
      "Number must be greater than or equal to 0" ++
  check (0 ≤ d.oldPrice) ["oldPrice"] "Old price must be 0 or greater" ++
  check (0 ≤ d.newPrice) ["newPrice"] "New price must be 0 or greater" ++
  check (0 ≤ d.childPrice) ["childPrice"] "Child price must be 0 or greater" ++
  check (1 ≤ d.minimumPerson) ["minimumPerson"]
      "Minimum must be at least 1 person" ++
  check (1 ≤ d.maximumPerson) ["maximumPerson"]
      "Maximum must be at least 1 person" ++
  check (1 ≤ d.departureTimes.length) ["departureTimes"]
      "At least one departure time is required" ++
  check (100 ≤ (stripHtmlTags d.details.about).length) ["details", "about"]
      "About section must be at least 100 characters" ++
  check (100 ≤ (stripHtmlTags d.details.itinerary).length) ["details", "itinerary"]
      "Itinerary must be at least 100 characters" ++
  check (10 ≤ (stripHtmlTags d.details.pickupLocation).length)
      ["details", "pickupLocation"] "Pickup location must be at least 10 characters" ++
  check (d.details.pickupGuidelines = "" ∨
      15 ≤ (stripHtmlTags d.details.pickupGuidelines).length)
      ["details", "pickupGuidelines"] "Pickup guidelines must be at least 15 characters" ++
  check (10 ≤ (stripHtmlTags d.details.note).length) ["details", "note"]
      "Note must be at least 10 characters" ++
  faqChecks ["details", "faq"] d.details.faq

/-- Cross-field `.refine` chain of the tour-creation schema, in chain order. -/
def tourRefineErrors (d : TourDraft) : List FieldError :=
  check (¬ d.oldPrice < d.newPrice) ["newPrice"]
      "New price must be less than or equal to old price" ++
  check (¬ (d.type ≠ TourType.privateTour ∧ d.maximumPerson ≤ d.minimumPerson))
      ["maximumPerson"] "Maximum persons must be greater than minimum persons" ++
  check (¬ (d.type = TourType.privateTour ∧ jsTrim (d.vehicle.getD "") = ""))
      ["vehicle"] "Vehicle is required for private tours"

/-- Full issue list produced by parsing a well-typed draft against the
tour-creation schema. -/
def tourSchemaErrors (d : TourDraft) : List FieldError :=
  tourFieldErrors d ++ tourRefineErrors d

/-- Caller-side FAQ filter used by `handleShowErrors` and `onSubmit`:
entries whose question and answer are both non-blank after trimming. -/
def validFaqs (l : List FaqEntry) : List FaqEntry :=
  l.filter fun f => jsTrim f.question ≠ "" && jsTrim f.answer ≠ ""

/-- Outcome of the tour form's `handleShowErrors`: the schema must report no
issues and at least one FAQ entry must survive the filter. -/
def tourValidationSuccess (d : TourDraft) : Bool :=
  (tourSchemaErrors d).isEmpty && !(validFaqs d.details.faq).isEmpty

/-- A concrete schema-valid tour draft (the spec's scenario 7). -/
def validTour : TourDraft where
  title := String.mk (List.replicate 25 'x')
  slug := ""
  image := "https://example.com/i.jpg"
  tags := ["Full-Day"]
  description := String.mk (List.replicate 60 'y')
  type := TourType.coTour
  duration := "4"
  period := Period.halfDay
  bookedCount := 0
  oldPrice := 100
  newPrice := 80
  childPrice := 40
  minimumPerson := 2
  maximumPerson := 10
  vehicle := some ""
  seatCapacity := some 4
  departureTimes := ["08:00"]
  label := Label.noLabel
  details :=
    { about := String.mk (List.replicate 100 'a')
      itinerary := String.mk (List.replicate 100 'b')
      pickupLocation := "Town center pickup"
      pickupGuidelines := ""
      note := "Bring water."
      faq := [{ question := "Q", answer := "A" }] }

example : tourSchemaErrors validTour = [] := by decide
example : tourValidationSuccess validTour = true := by decide

/-- Nested `details` object of the tour-edit schema (it matches the stored
Tour model, not the creation form). -/
structure TourEditDetails where
  about : String
  itinerary : String
  pickupLocations : List String
  pickupGuidelines : Option String
  notes : List String
  includes : List String
  faq : List FaqEntry
  deriving DecidableEq, Repr

/-- Form data of the tour-edit schema (`TourFormData` in
src/app/tours/[id]/page.tsx). -/
structure TourEditDraft where
  title : String
  slug : String
  image : String
  tags : List String
  description : String
  type : TourType
  duration : String
  period : Period
  bookedCount : Int
  rating : Option Int
  reviewCount : Option Int
  oldPrice : Int
  newPrice : Int
  childPrice : Int
  minimumPerson : Int
  maximumPerson : Int
  vehicle : Option String
  seatCapacity : Option Int
  departureTimes : List String
  label : Label
  details : TourEditDetails
  deriving DecidableEq, Repr

/-- Per-field issues of the tour-edit schema, in shape order.  Its rich-text
rules use plain `.min`, i.e. raw length, and the description cap is 200. -/
def tourEditFieldErrors (d : TourEditDraft) : List FieldError :=
  check (20 ≤ d.title.length) ["title"] "Title must be at least 20 characters" ++
  check (d.title.length ≤ 100) ["title"] "Title cannot exceed 100 characters" ++
  check (slugOk d.slug = true) ["slug"]
      "Slug can only contain lowercase letters, numbers and hyphens" ++
  check (1 ≤ d.image.length) ["image"] "Please provide an image" ++
  check (1 ≤ d.tags.length) ["tags"] "At least one tag is required" ++
  elemChecks ["tags"] "String must contain at least 1 character(s)"
      (fun t => 1 ≤ t.length) d.tags ++
  check (50 ≤ d.description.length) ["description"]
      "Description must be at least 50 characters" ++
  check (d.description.length ≤ 200) ["description"]
      "Description cannot exceed 200 characters" ++
  check (1 ≤ d.duration.length) ["duration"] "Duration is required" ++
  check (0 ≤ d.bookedCount) ["bookedCount"]
      "Number must be greater than or equal to 0" ++
  check (optAll (fun r => decide (0 ≤ r) && decide (r ≤ 5)) d.rating = true)
      ["rating"] "Number must be between 0 and 5" ++
  check (optAll (fun r => decide (0 ≤ r)) d.reviewCount = true) ["reviewCount"]
      "Number must be greater than or equal to 0" ++
  check (0 ≤ d.oldPrice) ["oldPrice"] "Old price must be 0 or greater" ++
  check (0 ≤ d.newPrice) ["newPrice"] "New price must be 0 or greater" ++
  check (0 ≤ d.childPrice) ["childPrice"] "Child price must be 0 or greater" ++
  check (1 ≤ d.minimumPerson) ["minimumPerson"]
      "Minimum must be at least 1 person" ++
  check (1 ≤ d.maximumPerson) ["maximumPerson"]
      "Maximum must be at least 1 person" ++
  check (1 ≤ d.departureTimes.length) ["departureTimes"]
      "At least one departure time is required" ++
  check (100 ≤ d.details.about.length) ["details", "about"]
      "About section must be at least 100 characters" ++
  check (50 ≤ d.details.itinerary.length) ["details", "itinerary"]
      "Itinerary must be at least 50 characters" ++
  check (1 ≤ d.details.pickupLocations.length) ["details", "pickupLocations"]
      "At least one pickup location is required" ++
  elemChecks ["details", "pickupLocations"]
      "String must contain at least 1 character(s)"
      (fun t => 1 ≤ t.length) d.details.pickupLocations ++
  check (1 ≤ d.details.notes.length) ["details", "notes"]
      "At least one note is required" ++
  elemChecks ["details", "notes"] "String must contain at least 1 character(s)"
      (fun t => 1 ≤ t.length) d.details.notes ++
  check (1 ≤ d.details.includes.length) ["details", "includes"]
      "At least one included item is required" ++
  elemChecks ["details", "includes"] "String must contain at least 1 character(s)"
      (fun t => 1 ≤ t.length) d.details.includes ++
  faqChecks ["details", "faq"] d.details.faq

/-- Cross-field `.refine` chain of the tour-edit schema, in chain order. -/
def tourEditRefineErrors (d : TourEditDraft) : List FieldError :=
  check (¬ d.oldPrice < d.newPrice) ["newPrice"]
      "New price must be less than or equal to old price" ++
  check (¬ (d.type ≠ TourType.privateTour ∧ d.maximumPerson ≤ d.minimumPerson))
      ["maximumPerson"] "Maximum persons must be greater than minimum persons"

/-- Full issue list of the tour-edit schema on a well-typed draft. -/
def tourEditSchemaErrors (d : TourEditDraft) : List FieldError :=
  tourEditFieldErrors d ++ tourEditRefineErrors d

/-- A concrete schema-valid tour-edit draft. -/
def validTourEdit : TourEditDraft where
  title := String.mk (List.replicate 25 'x')
  slug := ""
  image := "https://example.com/i.jpg"
  tags := ["Full-Day"]
  description := String.mk (List.replicate 60 'y')
  type := TourType.coTour
  duration := "4"
  period := Period.halfDay
  bookedCount := 0
  rating := none
  reviewCount := none
  oldPrice := 100
  newPrice := 80
  childPrice := 40
  minimumPerson := 2
  maximumPerson := 10
  vehicle := some ""
  seatCapacity := some 4
  departureTimes := ["08:00"]
  label := Label.bestSeller
  details :=
    { about := String.mk (List.replicate 100 'a')
      itinerary := String.mk (List.replicate 50 'b')
      pickupLocations := ["Town center"]
      pickupGuidelines := none
      notes := ["Note one"]
      includes := ["Water"]
      faq := [{ question := "Q", answer := "A" }] }

example : tourEditSchemaErrors validTourEdit = [] := by decide

/-- Transfer type enum `z.enum(["Van", "Van + Ferry", "Private"])`. -/
inductive TransferType | van | vanFerry | privateTransfer
  deriving DecidableEq, Repr

/-- Pickup option enum `z.enum(["admin", "user"])`. -/
inductive PickupOption | admin | user
  deriving DecidableEq, Repr

/-- Nested `details` object of the transfer-creation schema. -/
structure TransferDetails where
  about : String
  itinerary : String
  pickupOption : PickupOption
  pickupLocation : Option String
  dropOffLocation : Option String
  pickupGuidelines : String
  note : String
  faq : List FaqEntry
  deriving DecidableEq, Repr

/-- Form data of the transfer-creation schema (`TransferFormData` in
src/app/transfers/add-transfer/page.tsx). -/
structure TransferDraft where
  title : String
  slug : String
  image : String
  tags : List String
  description : String
  type : TransferType
  vehicle : Option String
  «from» : String
  «to» : String
  duration : String
  bookedCount : Int
  rating : Option Int
  reviewCount : Option Int
  oldPrice : Int
  newPrice : Int
  childPrice : Option Int
  minimumPerson : Option Int
  maximumPerson : Option Int
  seatCapacity : Int
  departureTimes : List String
  label : Label
  details : TransferDetails
  deriving DecidableEq, Repr

/-- Per-field issues of the transfer-creation schema, in shape order. -/
def transferFieldErrors (d : TransferDraft) : List FieldError :=
  check (20 ≤ d.title.length) ["title"] "Title must be at least 20 characters" ++
  check (d.title.length ≤ 100) ["title"] "Title cannot exceed 100 characters" ++
  check (slugOk d.slug = true) ["slug"]
      "Slug can only contain lowercase letters, numbers and hyphens" ++
  check (1 ≤ d.image.length) ["image"] "Please provide an image" ++
  check (1 ≤ d.tags.length) ["tags"] "At least one tag is required" ++
  elemChecks ["tags"] "String must contain at least 1 character(s)"
      (fun t => 1 ≤ t.length) d.tags ++
  check (50 ≤ d.description.length) ["description"]
      "Description must be at least 50 characters" ++
  check (d.description.length ≤ 110) ["description"]
      "Description cannot exceed 110 characters" ++
  check (2 ≤ d.«from».length) ["from"] "From location is required" ++
  check (2 ≤ d.«to».length) ["to"] "To location is required" ++
  check (1 ≤ d.duration.length) ["duration"] "Duration is required" ++
  check (0 ≤ d.bookedCount) ["bookedCount"]
      "Number must be greater than or equal to 0" ++
  check (optAll (fun r => decide (0 ≤ r) && decide (r ≤ 5)) d.rating = true)
      ["rating"] "Number must be between 0 and 5" ++
  check (optAll (fun r => decide (0 ≤ r)) d.reviewCount = true) ["reviewCount"]
      "Number must be greater than or equal to 0" ++
  check (0 ≤ d.oldPrice) ["oldPrice"] "Old price must be 0 or greater" ++
  check (0 ≤ d.newPrice) ["newPrice"] "New price must be 0 or greater" ++
  check (optAll (fun c => decide (0 ≤ c)) d.childPrice = true) ["childPrice"]
      "Child price must be 0 or greater" ++
  check (optAll (fun m => decide (1 ≤ m)) d.minimumPerson = true) ["minimumPerson"]
      "Minimum must be at least 1 person" ++
  check (optAll (fun m => decide (1 ≤ m)) d.maximumPerson = true) ["maximumPerson"]
      "Maximum must be at least 1 person" ++
  check (1 ≤ d.seatCapacity) ["seatCapacity"]
      "Seat capacity must be at least 1" ++
  check (1 ≤ d.departureTimes.length) ["departureTimes"]
      "At least one departure time is required" ++
  check (100 ≤ (stripHtmlTags d.details.about).length) ["details", "about"]
      "About section must be at least 100 characters" ++
  check (100 ≤ (stripHtmlTags d.details.itinerary).length) ["details", "itinerary"]
      "Itinerary must be at least 100 characters" ++
  check (d.details.pickupGuidelines = "" ∨
      15 ≤ (stripHtmlTags d.details.pickupGuidelines).length)
      ["details", "pickupGuidelines"] "Pickup guidelines must be at least 15 characters" ++
  check (10 ≤ (stripHtmlTags d.details.note).length) ["details", "note"]
      "Note must be at least 10 characters" ++
  faqChecks ["details", "faq"] d.details.faq

/-- Cross-field `.refine` chain of the transfer-creation schema, in chain
order.  Note that the pickup-location, pickup-guidelines and vehicle
refinements test the raw `.length` of the strings, not their stripped
length, and that the person-count comparison guards on JS truthiness of the
two optional numbers. -/
def transferRefineErrors (d : TransferDraft) : List FieldError :=
  check (¬ d.oldPrice < d.newPrice) ["newPrice"]
      "New price must be less than or equal to old price" ++
  check (d.type ≠ TransferType.privateTransfer →
      d.childPrice ≠ none ∧ d.minimumPerson ≠ none ∧ d.maximumPerson ≠ none)
      ["type"]
      "Child price, minimum persons, and maximum persons are required for non-Private transfers" ++
  check (¬ (d.type ≠ TransferType.privateTransfer ∧
      truthyNum d.maximumPerson = true ∧ truthyNum d.minimumPerson = true ∧
      d.maximumPerson.getD 0 ≤ d.minimumPerson.getD 0))
      ["maximumPerson"] "Maximum persons must be greater than minimum persons" ++
  check (¬ jsToLower d.«from» = jsToLower d.«to») ["to"]
      "From and To locations must be different" ++
  check (d.details.pickupOption = PickupOption.admin →
      truthyStr d.details.pickupLocation = true ∧
      10 ≤ (d.details.pickupLocation.getD "").length)
      ["details", "pickupLocation"] "Pickup location must be at least 10 characters" ++
  check (d.details.pickupGuidelines ≠ "" ∧ 15 ≤ d.details.pickupGuidelines.length)
      ["details", "pickupGuidelines"] "Pickup guidelines must be at least 15 characters" ++
  check (d.type = TransferType.privateTransfer →
      truthyStr d.vehicle = true ∧ 2 ≤ (d.vehicle.getD "").length)
      ["vehicle"] "Vehicle name is required for private transfers"

/-- Full issue list of the transfer-creation schema on a well-typed draft. -/
def transferSchemaErrors (d : TransferDraft) : List FieldError :=
  transferFieldErrors d ++ transferRefineErrors d

/-- Outcome of the transfer form's `handleShowErrors`: schema pass plus the
caller-side FAQ completeness filter. -/
def transferValidationSuccess (d : TransferDraft) : Bool :=
  (transferSchemaErrors d).isEmpty && !(validFaqs d.details.faq).isEmpty

/-- A concrete schema-valid Van transfer draft. -/
def validTransfer : TransferDraft where
  title := String.mk (List.replicate 25 'x')
  slug := ""
  image := "https://example.com/i.jpg"
  tags := ["KL"]
  description := String.mk (List.replicate 60 'y')
  type := TransferType.van
  vehicle := some ""
  «from» := "Kuala Lumpur"
  «to» := "Cameron Highlands"
  duration := "4"
  bookedCount := 0
  rating := some 0
  reviewCount := some 0
  oldPrice := 100
  newPrice := 80
  childPrice := some 40
  minimumPerson := some 2
  maximumPerson := some 10
  seatCapacity := 4
  departureTimes := ["08:00"]
  label := Label.noLabel
  details :=
    { about := String.mk (List.replicate 100 'a')
      itinerary := String.mk (List.replicate 100 'b')
      pickupOption := PickupOption.admin
      pickupLocation := some "Town center pickup"
      dropOffLocation := some ""
      pickupGuidelines := "Please arrive ten minutes early."
      note := "Bring water."
      faq := [{ question := "Q", answer := "A" }] }

example : transferSchemaErrors validTransfer = [] := by decide

/-- A concrete schema-valid Private transfer draft. -/
def privTransfer : TransferDraft :=
  { validTransfer with
      type := TransferType.privateTransfer
      vehicle := some "Toyota Alphard"
      childPrice := none
      minimumPerson := some 1
      maximumPerson := none }

example : transferSchemaErrors privTransfer = [] := by decide
example : transferValidationSuccess privTransfer = true := by decide

/-- Validation/submission state of the add-transfer form: the current form
values, the `hasValidated` and `validationSuccess` flags, and the log of
drafts handed to `onSubmit`.  Network and image-upload plumbing is out of
scope. -/
structure TransferForm where
  draft : TransferDraft
  hasValidated : Bool
  validationSuccess : Bool
  submitted : List TransferDraft
  deriving Repr

/-- Initial form state for a given set of form values. -/
def initTransferForm (d : TransferDraft) : TransferForm :=
  { draft := d, hasValidated := false, validationSuccess := false,
    submitted := [] }

/-- User-visible events of the add-transfer form: one mutation per editable
field, the Validate button (`handleShowErrors`) and the Save button
(`handleSaveTransfer`). -/
inductive TransferEv
  | setTitle (v : String)
  | setType (v : TransferType)
  | setDescription (v : String)
  | setImage (v : String)
  | setTags (v : List String)
  | setDuration (v : String)
  | setBookedCount (v : Int)
  | setOldPrice (v : Int)
  | setNewPrice (v : Int)
  | setChildPrice (v : Option Int)
  | setLabel (v : Label)
  | setSlug (v : String)
  | setFrom (v : String)
  | setTo (v : String)
  | setPickupOption (v : PickupOption)
  | setMinimumPerson (v : Option Int)
  | setMaximumPerson (v : Option Int)
  | setDepartureTimes (v : List String)
  | setAbout (v : String)
  | setItinerary (v : String)
  | setPickupLocation (v : Option String)
  | setPickupGuidelines (v : String)
  | setNote (v : String)
  | setFaq (v : List FaqEntry)
  | setVehicle (v : Option String)
  | setSeatCapacity (v : Int)
  | setDropOffLocation (v : Option String)
  | validate
  | save
  deriving Repr

/-- The reset performed by the form's "Reset validation state when any form
field changes" effect. -/
def resetValidation (s : TransferForm) : TransferForm :=
  { s with hasValidated := false, validationSuccess := false }

/-- One step of the add-transfer form.  A field mutation updates the draft
and, exactly when the field appears in the dependency list of the
validation-reset effect, clears the validation flags.  The watched fields
are title, type, description, image, tags, duration, bookedCount, oldPrice,
newPrice, childPrice, label, slug, from, to, pickupOption, minimumPerson,
maximumPerson, departureTimes and the watched details fields; `vehicle`,
`seatCapacity` and `dropOffLocation` are absent from that list, so mutating
them leaves the flags untouched.  `validate` runs `handleShowErrors`;
`save` runs `handleSaveTransfer`, which submits the current values only when
`hasValidated` and `validationSuccess` both hold. -/
def transferStep (s : TransferForm) : TransferEv → TransferForm
  | TransferEv.setTitle v =>
      resetValidation { s with draft := { s.draft with title := v } }
  | TransferEv.setType v =>
      resetValidation { s with draft := { s.draft with type := v } }
  | TransferEv.setDescription v =>
      resetValidation { s with draft := { s.draft with description := v } }
  | TransferEv.setImage v =>
      resetValidation { s with draft := { s.draft with image := v } }
  | TransferEv.setTags v =>
      resetValidation { s with draft := { s.draft with tags := v } }
  | TransferEv.setDuration v =>
      resetValidation { s with draft := { s.draft with duration := v } }
  | TransferEv.setBookedCount v =>
      resetValidation { s with draft := { s.draft with bookedCount := v } }
  | TransferEv.setOldPrice v =>
      resetValidation { s with draft := { s.draft with oldPrice := v } }
  | TransferEv.setNewPrice v =>
      resetValidation { s with draft := { s.draft with newPrice := v } }
  | TransferEv.setChildPrice v =>
      resetValidation { s with draft := { s.draft with childPrice := v } }
  | TransferEv.setLabel v =>
      resetValidation { s with draft := { s.draft with label := v } }
  | TransferEv.setSlug v =>
      resetValidation { s with draft := { s.draft with slug := v } }
  | TransferEv.setFrom v =>
      resetValidation { s with draft := { s.draft with «from» := v } }
  | TransferEv.setTo v =>
      resetValidation { s with draft := { s.draft with «to» := v } }
  | TransferEv.setPickupOption v =>
      resetValidation { s with draft :=
        { s.draft with details := { s.draft.details with pickupOption := v } } }
  | TransferEv.setMinimumPerson v =>
      resetValidation { s with draft := { s.draft with minimumPerson := v } }
  | TransferEv.setMaximumPerson v =>
      resetValidation { s with draft := { s.draft with maximumPerson := v } }
  | TransferEv.setDepartureTimes v =>
      resetValidation { s with draft := { s.draft with departureTimes := v } }
  | TransferEv.setAbout v =>
      resetValidation { s with draft :=
        { s.draft with details := { s.draft.details with about := v } } }
  | TransferEv.setItinerary v =>
      resetValidation { s with draft :=
        { s.draft with details := { s.draft.details with itinerary := v } } }
  | TransferEv.setPickupLocation v =>
      resetValidation { s with draft :=
        { s.draft with details := { s.draft.details with pickupLocation := v } } }
  | TransferEv.setPickupGuidelines v =>
      resetValidation { s with draft :=
        { s.draft with details := { s.draft.details with pickupGuidelines := v } } }
  | TransferEv.setNote v =>
      resetValidation { s with draft :=
        { s.draft with details := { s.draft.details with note := v } } }
  | TransferEv.setFaq v =>
      resetValidation { s with draft :=
        { s.draft with details := { s.draft.details with faq := v } } }
  | TransferEv.setVehicle v =>
      { s with draft := { s.draft with vehicle := v } }
  | TransferEv.setSeatCapacity v =>
      { s with draft := { s.draft with seatCapacity := v } }
  | TransferEv.setDropOffLocation v =>
      { s with draft :=
        { s.draft with details := { s.draft.details with dropOffLocation := v } } }
  | TransferEv.validate =>
      { s with hasValidated := true,
               validationSuccess := transferValidationSuccess s.draft }
  | TransferEv.save =>
      if s.hasValidated && s.validationSuccess then
        { s with submitted := s.draft :: s.submitted }
      else s

/-- Run a list of events through the add-transfer form. -/
def transferExec (evs : List TransferEv) (s : TransferForm) : TransferForm :=
  evs.foldl transferStep s

/-- Keep exactly the characters the slug generator's deletion step
`replace(/[^a-z0-9 -]/g, "")` retains. -/
def slugKeep (c : Char) : Bool :=
  ('a' ≤ c && c ≤ 'z') || ('0' ≤ c && c ≤ '9') || c = ' ' || c = '-'

/-- Replace every maximal run of characters satisfying `p` with the single
character `r`; the flag records whether the previous character was inside
such a run.  Models `replace(/X+/g, r)` for a character class `X`. -/
def collapseRuns (p : Char → Bool) (r : Char) : List Char → Bool → List Char
  | [], _ => []
  | c :: cs, inRun =>
    if p c then
      if inRun then collapseRuns p r cs true
      else r :: collapseRuns p r cs true
    else c :: collapseRuns p r cs false

/-- The slug auto-generation chain of the title effect:
lowercase, trim, delete characters outside `[a-z0-9 -]`, replace whitespace
runs with a hyphen, collapse hyphen runs, and strip leading and trailing
hyphens. -/
def slugPipeline (l0 : List Char) : List Char :=
  let l := l0.map Char.toLower
  let l := ((l.dropWhile jsWs).reverse.dropWhile jsWs).reverse
  let l := l.filter slugKeep
  let l := collapseRuns jsWs '-' l false
  let l := collapseRuns (fun c => c = '-') '-' l false
  let l := l.dropWhile (fun c => c = '-')
  (l.reverse.dropWhile (fun c => c = '-')).reverse

/-- String-level wrapper: `toLowerCase`, `trim`, delete, hyphenate, collapse
and strip, exactly as the effect computes `generatedSlug`. -/
def generateSlug (title : String) : String :=
  String.mk (slugPipeline title.data)

example : generateSlug "  Cameron Highlands -- Day Trip! " = "cameron-highlands-day-trip" := by decide

theorem check_eq_nil_iff {p : Prop} [Decidable p] {path : List String}
    {msg : String} : check p path msg = [] ↔ p := by
  by_cases h : p <;> simp [check, h]

theorem mem_check {x : FieldError} {p : Prop} [Decidable p] {path : List String}
    {msg : String} (h : x ∈ check p path msg) : x = (path, msg) ∧ ¬ p := by
  by_cases hp : p
  · simp [check, hp] at h
  · simp [check, hp] at h
    exact ⟨h, hp⟩

theorem mem_check_self {p : Prop} [Decidable p] {path : List String}
    {msg : String} (h : ¬ p) : (path, msg) ∈ check p path msg := by
  simp [check, h]

theorem mem_elemChecks_snd {x : FieldError} {base : List String} {msg : String}
    {ok : String → Bool} {l : List String} (h : x ∈ elemChecks base msg ok l) :
    x.2 = msg := by
  simp only [elemChecks] at h
  obtain ⟨it, -, hit⟩ := List.mem_filterMap.mp h
  by_cases hok : ok it.2 = true
  · simp [hok] at hit
  · simp [hok] at hit
    rw [← hit]

theorem mem_faqChecks_snd {x : FieldError} {base : List String}
    {l : List FaqEntry} (h : x ∈ faqChecks base l) :
    x.2 = "Question is required" ∨ x.2 = "Answer is required" := by
  simp only [faqChecks] at h
  obtain ⟨li, hli, hx⟩ := List.mem_flatten.mp h
  obtain ⟨it, -, rfl⟩ := List.mem_map.mp hli
  rcases List.mem_append.mp hx with h' | h'
  · left
    rw [(mem_check h').1]
  · right
    rw [(mem_check h').1]

/-- The messages a per-field rule of the tour-creation schema can emit. -/
def tourFieldMsgs : List String :=
  ["Title must be at least 20 characters", "Title cannot exceed 100 characters",
   "Slug can only contain lowercase letters, numbers and hyphens",
   "Please provide an image", "At least one tag is required",
   "String must contain at least 1 character(s)",
   "Description must be at least 50 characters",
   "Description cannot exceed 110 characters", "Duration is required",
   "Number must be greater than or equal to 0", "Old price must be 0 or greater",
   "New price must be 0 or greater", "Child price must be 0 or greater",
   "Minimum must be at least 1 person", "Maximum must be at least 1 person",
   "At least one departure time is required",
   "About section must be at least 100 characters",
   "Itinerary must be at least 100 characters",
   "Pickup location must be at least 10 characters",
   "Pickup guidelines must be at least 15 characters",
   "Note must be at least 10 characters", "Question is required",
   "Answer is required"]

theorem tourFieldErrors_snd {d : TourDraft} {x : FieldError}
    (h : x ∈ tourFieldErrors d) : x.2 ∈ tourFieldMsgs := by
  simp only [tourFieldErrors, List.mem_append, or_assoc] at h
  rcases h with h|h|h|h|h|h|h|h|h|h|h|h|h|h|h|h|h|h|h|h|h|h
  all_goals first
    | (rw [(mem_check h).1]; decide)
    | (rw [mem_elemChecks_snd h]; decide)
    | (rcases mem_faqChecks_snd h with h' | h' <;> rw [h'] <;> decide)

/-- The messages a per-field rule of the tour-edit schema can emit. -/
def tourEditFieldMsgs : List String :=
  ["Title must be at least 20 characters", "Title cannot exceed 100 characters",
   "Slug can only contain lowercase letters, numbers and hyphens",
   "Please provide an image", "At least one tag is required",
   "String must contain at least 1 character(s)",
   "Description must be at least 50 characters",
   "Description cannot exceed 200 characters", "Duration is required",
   "Number must be greater than or equal to 0", "Number must be between 0 and 5",
   "Old price must be 0 or greater", "New price must be 0 or greater",
   "Child price must be 0 or greater", "Minimum must be at least 1 person",
   "Maximum must be at least 1 person", "At least one departure time is required",
   "About section must be at least 100 characters",
   "Itinerary must be at least 50 characters",
   "At least one pickup location is required", "At least one note is required",
   "At least one included item is required", "Question is required",
   "Answer is required"]

theorem tourEditFieldErrors_snd {d : TourEditDraft} {x : FieldError}
    (h : x ∈ tourEditFieldErrors d) : x.2 ∈ tourEditFieldMsgs := by
  simp only [tourEditFieldErrors, List.mem_append, or_assoc] at h
  rcases h with h|h|h|h|h|h|h|h|h|h|h|h|h|h|h|h|h|h|h|h|h|h|h|h|h|h|h
  all_goals first
    | (rw [(mem_check h).1]; decide)
    | (rw [mem_elemChecks_snd h]; decide)
    | (rcases mem_faqChecks_snd h with h' | h' <;> rw [h'] <;> decide)

/-- The messages a per-field rule of the transfer-creation schema can emit. -/
def transferFieldMsgs : List String :=
  ["Title must be at least 20 characters", "Title cannot exceed 100 characters",
   "Slug can only contain lowercase letters, numbers and hyphens",
   "Please provide an image", "At least one tag is required",
   "String must contain at least 1 character(s)",
   "Description must be at least 50 characters",
   "Description cannot exceed 110 characters", "From location is required",
   "To location is required", "Duration is required",
   "Number must be greater than or equal to 0", "Number must be between 0 and 5",
   "Old price must be 0 or greater", "New price must be 0 or greater",
   "Child price must be 0 or greater", "Minimum must be at least 1 person",
   "Maximum must be at least 1 person", "Seat capacity must be at least 1",
   "At least one departure time is required",
   "About section must be at least 100 characters",
   "Itinerary must be at least 100 characters",
   "Pickup guidelines must be at least 15 characters",
   "Note must be at least 10 characters", "Question is required",
   "Answer is required"]

theorem transferFieldErrors_snd {d : TransferDraft} {x : FieldError}
    (h : x ∈ transferFieldErrors d) : x.2 ∈ transferFieldMsgs := by
  simp only [transferFieldErrors, List.mem_append, or_assoc] at h
  rcases h with h|h|h|h|h|h|h|h|h|h|h|h|h|h|h|h|h|h|h|h|h|h|h|h|h|h
  all_goals first
    | (rw [(mem_check h).1]; decide)
    | (rw [mem_elemChecks_snd h]; decide)
    | (rcases mem_faqChecks_snd h with h' | h' <;> rw [h'] <;> decide)

/-- A tour draft violating the price ordering, otherwise valid. -/
def badPriceTour : TourDraft := { validTour with newPrice := 150 }

/-- A tour-edit draft violating the price ordering, otherwise valid. -/
def badPriceTourEdit : TourEditDraft := { validTourEdit with newPrice := 150 }

/-- A transfer draft violating the price ordering, otherwise valid. -/
def badPriceTransfer : TransferDraft := { validTransfer with newPrice := 150 }

/-- C1: in all three schemas — tour creation, tour edit and transfer
creation — a draft with `newPrice` strictly above `oldPrice` fails schema
validation and the error set contains an issue whose field path is
`newPrice`. -/
theorem newPrice_gt_oldPrice_rejected :
    (∀ d : TourDraft, d.oldPrice < d.newPrice →
      tourSchemaErrors d ≠ [] ∧ ["newPrice"] ∈ errorPaths (tourSchemaErrors d)) ∧
    (∀ d : TourEditDraft, d.oldPrice < d.newPrice →
      tourEditSchemaErrors d ≠ [] ∧
        ["newPrice"] ∈ errorPaths (tourEditSchemaErrors d)) ∧
    (∀ d : TransferDraft, d.oldPrice < d.newPrice →
      transferSchemaErrors d ≠ [] ∧
        ["newPrice"] ∈ errorPaths (transferSchemaErrors d)) := by
  refine ⟨fun d h => ?_, fun d h => ?_, fun d h => ?_⟩
  · have hm : (["newPrice"],
        "New price must be less than or equal to old price") ∈ tourSchemaErrors d := by
      unfold tourSchemaErrors tourRefineErrors
      exact List.mem_append_right _
        (List.mem_append_left _
          (List.mem_append_left _ (mem_check_self (not_not_intro h))))
    exact ⟨List.ne_nil_of_mem hm, List.mem_map_of_mem Prod.fst hm⟩
  · have hm : (["newPrice"],
        "New price must be less than or equal to old price") ∈ tourEditSchemaErrors d := by
      unfold tourEditSchemaErrors tourEditRefineErrors
      exact List.mem_append_right _
        (List.mem_append_left _ (mem_check_self (not_not_intro h)))
    exact ⟨List.ne_nil_of_mem hm, List.mem_map_of_mem Prod.fst hm⟩
  · have hm : (["newPrice"],
        "New price must be less than or equal to old price") ∈ transferSchemaErrors d := by
      unfold transferSchemaErrors transferRefineErrors
      exact List.mem_append_right _
        (List.mem_append_left _ (List.mem_append_left _ (List.mem_append_left _
          (List.mem_append_left _ (List.mem_append_left _
            (List.mem_append_left _ (mem_check_self (not_not_intro h))))))))
    exact ⟨List.ne_nil_of_mem hm, List.mem_map_of_mem Prod.fst hm⟩

/-- Witness for C1 at concrete price-violating drafts. -/
theorem newPrice_gt_oldPrice_rejected_witness :
    (tourSchemaErrors badPriceTour ≠ [] ∧
      ["newPrice"] ∈ errorPaths (tourSchemaErrors badPriceTour)) ∧
    (tourEditSchemaErrors badPriceTourEdit ≠ [] ∧
      ["newPrice"] ∈ errorPaths (tourEditSchemaErrors badPriceTourEdit)) ∧
    (transferSchemaErrors badPriceTransfer ≠ [] ∧
      ["newPrice"] ∈ errorPaths (transferSchemaErrors badPriceTransfer)) :=
  ⟨newPrice_gt_oldPrice_rejected.1 badPriceTour (by decide),
   newPrice_gt_oldPrice_rejected.2.1 badPriceTourEdit (by decide),
   newPrice_gt_oldPrice_rejected.2.2 badPriceTransfer (by decide)⟩

/-- A schema-valid tour draft with no FAQ entries at all. -/
def noFaqTour : TourDraft :=
  { validTour with details := { validTour.details with faq := [] } }

/-- A schema-valid transfer draft with no FAQ entries at all. -/
def noFaqTransfer : TransferDraft :=
  { validTransfer with details := { validTransfer.details with faq := [] } }

/-- C2: two-phase validation — on a draft whose schema pass reports no
issues but whose FAQ list, filtered to entries with non-blank trimmed
question and answer, is empty, the caller marks validation as failed, for
both the tour and the transfer creation forms. -/
theorem faq_completeness_two_phase :
    (∀ d : TourDraft, tourSchemaErrors d = [] →
      validFaqs d.details.faq = [] → tourValidationSuccess d = false) ∧
    (∀ d : TransferDraft, transferSchemaErrors d = [] →
      validFaqs d.details.faq = [] → transferValidationSuccess d = false) := by
  constructor
  · intro d _ h2
    simp [tourValidationSuccess, h2]
  · intro d _ h2
    simp [transferValidationSuccess, h2]

/-- Witness for C2 at concrete schema-valid drafts without usable FAQs. -/
theorem faq_completeness_two_phase_witness :
    tourValidationSuccess noFaqTour = false ∧
    transferValidationSuccess noFaqTransfer = false :=
  ⟨faq_completeness_two_phase.1 noFaqTour (by decide) (by decide),
   faq_completeness_two_phase.2 noFaqTransfer (by decide) (by decide)⟩

/-- An admin-pickup transfer whose pickup location is markup around a
two-character text: raw length 13, stripped length 2. -/
def markupPickupTransfer : TransferDraft :=
  { validTransfer with details :=
      { validTransfer.details with pickupLocation := some "<div>hi</div>" } }

/-- C3 counterexample: the admin pickup-location refinement tests the raw
string length, so a pickup location whose raw length is at least 10 but
whose stripped length is below 10 passes schema validation, contradicting
the claim that it is rejected. -/
theorem pickupLocation_admin_raw_length_cex :
    markupPickupTransfer.details.pickupOption = PickupOption.admin ∧
    (stripHtmlTags (markupPickupTransfer.details.pickupLocation.getD "")).length < 10 ∧
    transferSchemaErrors markupPickupTransfer = [] := by
  refine ⟨by decide, by decide, by decide⟩

/-- C3 amended: for an admin-pickup transfer, schema validation succeeds
only if the pickup location is present, truthy and of raw length at least
10 — markup characters count towards that length. -/
theorem pickupLocation_admin_raw_length :
    ∀ d : TransferDraft, d.details.pickupOption = PickupOption.admin →
      transferSchemaErrors d = [] →
      truthyStr d.details.pickupLocation = true ∧
        10 ≤ (d.details.pickupLocation.getD "").length := by
  intro d h1 h2
  simp only [transferSchemaErrors, transferFieldErrors, transferRefineErrors,
    List.append_eq_nil, check_eq_nil_iff] at h2
  tauto

/-- Witness for the amended C3 at a concrete valid admin-pickup transfer. -/
theorem pickupLocation_admin_raw_length_witness :
    truthyStr validTransfer.details.pickupLocation = true ∧
      10 ≤ (validTransfer.details.pickupLocation.getD "").length :=
  pickupLocation_admin_raw_length validTransfer (by decide) (by decide)

/-- A transfer draft with empty pickup guidelines, otherwise valid. -/
def emptyGuidelinesTransfer : TransferDraft :=
  { validTransfer with details :=
      { validTransfer.details with pickupGuidelines := "" } }

/-- C4: a transfer draft passes schema validation only if the stripped
length of its pickup guidelines is at least 15; in particular an empty
string fails, even though the per-field rule alone accepts empty values. -/
theorem pickupGuidelines_stripped_min15 :
    (∀ d : TransferDraft, transferSchemaErrors d = [] →
      15 ≤ (stripHtmlTags d.details.pickupGuidelines).length) ∧
    (∀ d : TransferDraft, d.details.pickupGuidelines = "" →
      transferSchemaErrors d ≠ []) := by
  constructor
  · intro d h
    simp only [transferSchemaErrors, transferFieldErrors, transferRefineErrors,
      List.append_eq_nil, check_eq_nil_iff] at h
    tauto
  · intro d hpg hnil
    simp only [transferSchemaErrors, transferFieldErrors, transferRefineErrors,
      List.append_eq_nil, check_eq_nil_iff] at hnil
    tauto

/-- Witness for C4 at concrete transfers: a valid one and one with empty
guidelines. -/
theorem pickupGuidelines_stripped_min15_witness :
    15 ≤ (stripHtmlTags validTransfer.details.pickupGuidelines).length ∧
    transferSchemaErrors emptyGuidelinesTransfer ≠ [] :=
  ⟨pickupGuidelines_stripped_min15.1 validTransfer (by decide),
   pickupGuidelines_stripped_min15.2 emptyGuidelinesTransfer (by decide)⟩

/-- A Private transfer whose vehicle is a bare markup tag: raw length 3,
stripped length 0. -/
def markupVehicleTransfer : TransferDraft :=
  { privTransfer with vehicle := some "<i>" }

/-- C5 counterexample: the Private-transfer vehicle refinement tests the
raw string length, so a vehicle consisting only of markup of raw length at
least 2 passes schema validation with no error on `vehicle`, contradicting
the claim that it is rejected. -/
theorem vehicle_private_raw_length_cex :
    markupVehicleTransfer.type = TransferType.privateTransfer ∧
    (stripHtmlTags (markupVehicleTransfer.vehicle.getD "")).length < 2 ∧
    transferSchemaErrors markupVehicleTransfer = [] := by
  refine ⟨by decide, by decide, by decide⟩

/-- C5 amended: a Private transfer passes schema validation only if the
vehicle is present, truthy and of raw length at least 2 — markup and
whitespace count towards that length. -/
theorem vehicle_private_raw_length :
    ∀ d : TransferDraft, d.type = TransferType.privateTransfer →
      transferSchemaErrors d = [] →
      truthyStr d.vehicle = true ∧ 2 ≤ (d.vehicle.getD "").length := by
  intro d h1 h2
  simp only [transferSchemaErrors, transferFieldErrors, transferRefineErrors,
    List.append_eq_nil, check_eq_nil_iff] at h2
  tauto

/-- Witness for the amended C5 at a concrete valid Private transfer. -/
theorem vehicle_private_raw_length_witness :
    truthyStr privTransfer.vehicle = true ∧
      2 ≤ (privTransfer.vehicle.getD "").length :=
  vehicle_private_raw_length privTransfer (by decide) (by decide)

/-- C6: in both tour schemas, a co-tour draft with `maximumPerson` at most
`minimumPerson` (both individually valid) receives the person-count
refinement error at path `maximumPerson`, while a private tour never
receives that refinement error, whatever the relation between the two
fields. -/
theorem maxPerson_rule_coTour_only :
    (∀ d : TourDraft, d.type = TourType.coTour → 1 ≤ d.minimumPerson →
      1 ≤ d.maximumPerson → d.maximumPerson ≤ d.minimumPerson →
      (["maximumPerson"], "Maximum persons must be greater than minimum persons")
        ∈ tourSchemaErrors d) ∧
    (∀ d : TourDraft, d.type = TourType.privateTour →
      (["maximumPerson"], "Maximum persons must be greater than minimum persons")
        ∉ tourSchemaErrors d) ∧
    (∀ d : TourEditDraft, d.type = TourType.coTour → 1 ≤ d.minimumPerson →
      1 ≤ d.maximumPerson → d.maximumPerson ≤ d.minimumPerson →
      (["maximumPerson"], "Maximum persons must be greater than minimum persons")
        ∈ tourEditSchemaErrors d) ∧
    (∀ d : TourEditDraft, d.type = TourType.privateTour →
      (["maximumPerson"], "Maximum persons must be greater than minimum persons")
        ∉ tourEditSchemaErrors d) := by
  refine ⟨fun d h1 _ _ h4 => ?_, fun d h1 hmem => ?_,
          fun d h1 _ _ h4 => ?_, fun d h1 hmem => ?_⟩
  · unfold tourSchemaErrors tourRefineErrors
    refine List.mem_append_right _
      (List.mem_append_left _ (List.mem_append_right _ (mem_check_self ?_)))
    exact not_not_intro ⟨by rw [h1]; decide, h4⟩
  · rcases List.mem_append.mp hmem with h | h
    · have := tourFieldErrors_snd h
      exact absurd this (by decide)
    · simp only [tourRefineErrors, List.mem_append, or_assoc] at h
      rcases h with h | h | h
      · exact absurd (mem_check h).1 (by decide)
      · obtain ⟨-, hp⟩ := mem_check h
        exact (not_not.mp hp).1 (by rw [h1])
      · exact absurd (mem_check h).1 (by decide)
  · unfold tourEditSchemaErrors tourEditRefineErrors
    refine List.mem_append_right _ (List.mem_append_right _ (mem_check_self ?_))
    exact not_not_intro ⟨by rw [h1]; decide, h4⟩
  · rcases List.mem_append.mp hmem with h | h
    · have := tourEditFieldErrors_snd h
      exact absurd this (by decide)
    · simp only [tourEditRefineErrors, List.mem_append, or_assoc] at h
      rcases h with h | h
      · exact absurd (mem_check h).1 (by decide)
      · obtain ⟨-, hp⟩ := mem_check h
        exact (not_not.mp hp).1 (by rw [h1])

/-- A co-tour draft whose maximum is below its minimum, otherwise valid. -/
def badPersonsTour : TourDraft :=
  { validTour with minimumPerson := 5, maximumPerson := 3 }

/-- A private-tour draft with the same inverted person counts. -/
def privatePersonsTour : TourDraft :=
  { validTour with
      type := TourType.privateTour
      vehicle := some "Toyota Van"
      minimumPerson := 5
      maximumPerson := 3 }

/-- A co-tour edit draft whose maximum is below its minimum. -/
def badPersonsTourEdit : TourEditDraft :=
  { validTourEdit with minimumPerson := 5, maximumPerson := 3 }

/-- A private-tour edit draft with the same inverted person counts. -/
def privatePersonsTourEdit : TourEditDraft :=
  { validTourEdit with
      type := TourType.privateTour
      minimumPerson := 5
      maximumPerson := 3 }

/-- Witness for C6 at concrete drafts with inverted person counts. -/
theorem maxPerson_rule_coTour_only_witness :
    (["maximumPerson"], "Maximum persons must be greater than minimum persons")
      ∈ tourSchemaErrors badPersonsTour ∧
    (["maximumPerson"], "Maximum persons must be greater than minimum persons")
      ∉ tourSchemaErrors privatePersonsTour ∧
    (["maximumPerson"], "Maximum persons must be greater than minimum persons")
      ∈ tourEditSchemaErrors badPersonsTourEdit ∧
    (["maximumPerson"], "Maximum persons must be greater than minimum persons")
      ∉ tourEditSchemaErrors privatePersonsTourEdit :=
  ⟨maxPerson_rule_coTour_only.1 badPersonsTour (by decide) (by decide)
      (by decide) (by decide),
   maxPerson_rule_coTour_only.2.1 privatePersonsTour (by decide),
   maxPerson_rule_coTour_only.2.2.1 badPersonsTourEdit (by decide) (by decide)
      (by decide) (by decide),
   maxPerson_rule_coTour_only.2.2.2 privatePersonsTourEdit (by decide)⟩

/-- A tour-edit draft with a 150-character description, otherwise valid. -/
def longDescTourEdit : TourEditDraft :=
  { validTourEdit with description := String.mk (List.replicate 150 'y') }

/-- C7 counterexample: the tour-edit schema caps the description at 200
characters, not 110, so a 150-character description passes the edit
validator, contradicting the claim that both validators reject it. -/
theorem description_bound_edit_cex :
    longDescTourEdit.description.length = 150 ∧
    tourEditSchemaErrors longDescTourEdit = [] := by
  refine ⟨by decide, by decide⟩

/-- C7 amended: the tour-creation validator accepts only descriptions of
length between 50 and 110, while the tour-edit validator accepts lengths
between 50 and 200 — so a 150-character description is rejected by the
creation validator but accepted by the edit validator. -/
theorem description_bounds :
    (∀ d : TourDraft, tourSchemaErrors d = [] →
      50 ≤ d.description.length ∧ d.description.length ≤ 110) ∧
    (∀ d : TourEditDraft, tourEditSchemaErrors d = [] →
      50 ≤ d.description.length ∧ d.description.length ≤ 200) := by
  constructor
  · intro d h
    simp only [tourSchemaErrors, tourFieldErrors, tourRefineErrors,
      List.append_eq_nil, check_eq_nil_iff] at h
    tauto
  · intro d h
    simp only [tourEditSchemaErrors, tourEditFieldErrors, tourEditRefineErrors,
      List.append_eq_nil, check_eq_nil_iff] at h
    tauto

/-- Witness for the amended C7 at concrete valid drafts, including the
150-character edit description. -/
theorem description_bounds_witness :
    (50 ≤ validTour.description.length ∧ validTour.description.length ≤ 110) ∧
    (50 ≤ longDescTourEdit.description.length ∧
      longDescTourEdit.description.length ≤ 200) :=
  ⟨description_bounds.1 validTour (by decide),
   description_bounds.2 longDescTourEdit (by decide)⟩

/-- A tour draft with a failing per-field rule (five-character title) and a
failing cross-field rule (newPrice above oldPrice) at the same time. -/
def dirtyTour : TourDraft :=
  { validTour with title := "short", newPrice := 150 }

/-- C8 counterexample: a draft with a failing per-field rule still receives
cross-field refinement errors — the error set of `dirtyTour` contains both
the title issue and the newPrice refinement issue, contradicting the claim
that per-field failures suppress all cross-field errors. -/
theorem refinements_not_gated_cex :
    (["title"], "Title must be at least 20 characters") ∈
      tourSchemaErrors dirtyTour ∧
    (["newPrice"], "New price must be less than or equal to old price") ∈
      tourSchemaErrors dirtyTour := by
  refine ⟨by decide, by decide⟩

/-- C8 amended: for well-typed drafts the cross-field refinements are always
evaluated, whether or not per-field value rules fail (zod skips refinements
only on type-level parse failures, which cannot arise from typed form
data).  The presence of a refinement issue therefore depends only on its own
predicate: shown here for the vehicle refinement of both creation schemas. -/
theorem refinement_errors_independent :
    (∀ d : TourDraft,
      (["vehicle"], "Vehicle is required for private tours") ∈ tourSchemaErrors d ↔
        (d.type = TourType.privateTour ∧ jsTrim (d.vehicle.getD "") = "")) ∧
    (∀ d : TransferDraft,
      (["vehicle"], "Vehicle name is required for private transfers") ∈
          transferSchemaErrors d ↔
        (d.type = TransferType.privateTransfer ∧
          ¬ (truthyStr d.vehicle = true ∧ 2 ≤ (d.vehicle.getD "").length))) := by
  constructor
  · intro d
    constructor
    · intro hmem
      rcases List.mem_append.mp hmem with h | h
      · exact absurd (tourFieldErrors_snd h) (by decide)
      · simp only [tourRefineErrors, List.mem_append, or_assoc] at h
        rcases h with h | h | h
        · exact absurd (mem_check h).1 (by decide)
        · exact absurd (mem_check h).1 (by decide)
        · exact not_not.mp (mem_check h).2
    · intro hc
      unfold tourSchemaErrors tourRefineErrors
      exact List.mem_append_right _
        (List.mem_append_right _ (mem_check_self (not_not_intro hc)))
  · intro d
    constructor
    · intro hmem
      rcases List.mem_append.mp hmem with h | h
      · exact absurd (transferFieldErrors_snd h) (by decide)
      · simp only [transferRefineErrors, List.mem_append, or_assoc] at h
        rcases h with h | h | h | h | h | h | h
        · exact absurd (mem_check h).1 (by decide)
        · exact absurd (mem_check h).1 (by decide)
        · exact absurd (mem_check h).1 (by decide)
        · exact absurd (mem_check h).1 (by decide)
        · exact absurd (mem_check h).1 (by decide)
        · exact absurd (mem_check h).1 (by decide)
        · exact Classical.not_imp.mp (mem_check h).2
    · intro hc
      have hnp : ¬ (d.type = TransferType.privateTransfer →
          truthyStr d.vehicle = true ∧ 2 ≤ (d.vehicle.getD "").length) :=
        fun himp => hc.2 (himp hc.1)
      unfold transferSchemaErrors transferRefineErrors
      exact List.mem_append_right _ (List.mem_append_right _ (mem_check_self hnp))

/-- A private tour whose vehicle is the blank default. -/
def blankVehicleTour : TourDraft :=
  { validTour with type := TourType.privateTour }

/-- Witness for the amended C8: the vehicle refinement issue appears on a
concrete private tour with a blank vehicle. -/
theorem refinement_errors_independent_witness :
    (["vehicle"], "Vehicle is required for private tours") ∈
      tourSchemaErrors blankVehicleTour :=
  (refinement_errors_independent.1 blankVehicleTour).mpr (by decide)

/-- The event sequence exposing the unwatched vehicle field: validate a
fully valid Private transfer, blank out the vehicle, then save. -/
def vehicleGapEvents : List TransferEv :=
  [TransferEv.validate, TransferEv.setVehicle (some ""), TransferEv.save]

/-- C9: because `vehicle` is missing from the dependency list of the
transfer form's validation-reset effect, editing the vehicle after a
successful validation leaves `hasValidated` and `validationSuccess` set, so
a subsequent save submits the mutated draft even though its current values
fail schema validation. -/
theorem vehicle_watch_gap_submits_invalid :
    (transferExec vehicleGapEvents (initTransferForm privTransfer)).submitted =
      [{ privTransfer with vehicle := some "" }] ∧
    transferSchemaErrors { privTransfer with vehicle := some "" } ≠ [] := by
  refine ⟨by decide, by decide⟩

theorem mem_of_dropWhile {p : Char → Bool} {l : List Char} {c : Char}
    (h : c ∈ l.dropWhile p) : c ∈ l := by
  induction l with
  | nil => simp at h
  | cons a as ih =>
    rw [List.dropWhile_cons] at h
    by_cases hp : p a = true
    · rw [if_pos hp] at h
      exact List.mem_cons_of_mem _ (ih h)
    · rw [if_neg hp] at h
      exact h

theorem mem_collapseRuns {p : Char → Bool} {r : Char} {c : Char} :
    ∀ {l : List Char} {b : Bool}, c ∈ collapseRuns p r l b →
      c = r ∨ (c ∈ l ∧ p c = false) := by
  intro l
  induction l with
  | nil =>
    intro b h
    simp [collapseRuns] at h
  | cons a as ih =>
    intro b h
    by_cases hp : p a = true
    · cases b with
      | false =>
        simp only [collapseRuns, hp, if_true, if_false] at h
        rcases List.mem_cons.mp h with rfl | h'
        · exact Or.inl rfl
        · rcases ih h' with h'' | ⟨hm, hpc⟩
          · exact Or.inl h''
          · exact Or.inr ⟨List.mem_cons_of_mem _ hm, hpc⟩
      | true =>
        simp only [collapseRuns, hp, if_true] at h
        rcases ih h with h'' | ⟨hm, hpc⟩
        · exact Or.inl h''
        · exact Or.inr ⟨List.mem_cons_of_mem _ hm, hpc⟩
    · rw [Bool.not_eq_true] at hp
      simp only [collapseRuns, hp, if_false, Bool.false_eq_true] at h
      rcases List.mem_cons.mp h with rfl | h'
      · exact Or.inr ⟨List.mem_cons_self _ _, hp⟩
      · rcases ih h' with h'' | ⟨hm, hpc⟩
        · exact Or.inl h''
        · exact Or.inr ⟨List.mem_cons_of_mem _ hm, hpc⟩

theorem slugChar_of_keep {c : Char} (h1 : slugKeep c = true)
    (h2 : jsWs c = false) : slugChar c = true := by
  simp only [slugKeep, Bool.or_eq_true, Bool.and_eq_true, decide_eq_true_eq,
    or_assoc] at h1
  simp only [slugChar, Bool.or_eq_true, Bool.and_eq_true, decide_eq_true_eq,
    or_assoc]
  rcases h1 with h | h | h | h
  · exact Or.inl h
  · exact Or.inr (Or.inl h)
  · rw [h] at h2
    exact absurd h2 (by decide)
  · exact Or.inr (Or.inr h)

/-- C10: the slug auto-generation chain always produces a string accepted
by the slug field's validation pattern, so an auto-generated slug never
causes a slug validation error. -/
theorem generateSlug_matches_slug_regex (title : String) :
    slugOk (generateSlug title) = true := by
  show (slugPipeline title.data).all slugChar = true
  rw [List.all_eq_true]
  intro c hc
  simp only [slugPipeline] at hc
  have h2 := mem_of_dropWhile (List.mem_reverse.mp hc)
  have h4 := mem_of_dropWhile (List.mem_reverse.mp h2)
  rcases mem_collapseRuns h4 with rfl | ⟨h5, -⟩
  · decide
  · rcases mem_collapseRuns h5 with rfl | ⟨h6, hws⟩
    · decide
    · exact slugChar_of_keep (List.mem_filter.mp h6).2 hws

end CHAdmin
